import Mathlib

/-
Shallow embedding of the trivia-duel game engine (server side).

Sources embedded:
  - src/server/trivia/consumers.py  (GameConsumer: connect, disconnect,
    receive_json, receive_game_ready, receive_question_answered,
    receive_fifty_request, handle_game_end, determine_user_status_by_hp,
    determine_rank_gain_by_game_status)
  - src/server/trivia/views.py      (LobbyViewSet.create, LobbyViewSet.join)
  - src/server/trivia/utils.py      (generate_lobby_token)
  - src/server/trivia/models.py     (Lobby record and its defaults)
  - src/server/trivia/types.py      (enums and payload shapes)

Modelling conventions:
  - Python dicts that preserve insertion order (lobby.users) are association
    lists; dict lookup that can raise KeyError is List.lookup plus an
    explicit error branch.
  - The Redis lobby store is modelled per lobby name as an Option Lobby
    (none = key absent); Lobby.get on an absent key raises NotFoundError,
    save overwrites the whole record, delete removes it.
  - Wall-clock datetimes are Int seconds; successive datetime.now() reads
    inside one handler are separate inputs (nowA, nowB).
  - Effects of the external trivia API, of random.sample and of the second
    clock read are inputs (Oracles); randomness is an explicit sampler
    function.
  - A Python exception escaping a handler is err = some e in the output;
    state mutations performed before the raise are kept, as in Python.
  - send_event_to_lobby (broadcast) and send_json (to the requesting
    socket only) are recorded in separate output lists toLobby and toSelf.
  - JWT signing (HS256) is not modelled; a token is its decoded payload,
    and a token that fails signature or expiry verification is none.
  - The relational Game/UserGame row writes are not modelled; the rank
    mutations of the two User rows are.
-/

namespace TriviaDuel

/-- Question difficulty, as in types.py. -/
inductive Difficulty
  | easy
  | medium
  | hard
deriving DecidableEq, Repr

abbrev UserId := Nat

/-- CorrectAnswer named tuple from types.py: the stored correct answer of one
question together with its difficulty. -/
structure CorrectAnswer where
  answer : String
  difficulty : Difficulty
deriving DecidableEq, Repr

/-- PlayerData from types.py: one entry of lobby.users. -/
structure PlayerData where
  name : String
  hp : Int
deriving DecidableEq, Repr

/-- LobbyState from types.py. -/
inductive LobbyState
  | WAITING
  | IN_PROGRESS
  | FINISHED
deriving DecidableEq, Repr

/-- GameStatus from types.py. -/
inductive GameStatus
  | DRAW
  | LOSS
  | WIN
deriving DecidableEq, Repr

/-- The configuration values of the engine, from core settings (enumerated in
the spec, section 6). -/
structure Settings where
  QUESTION_MAX_DURATION_SECONDS_MAP : Difficulty → Nat
  QUESTION_DIFFICULTY_DAMAGE_MAP : Difficulty → Nat
  GAME_MAX_DURATION_SECONDS : Nat
  GAME_RANK_GAIN : Int
  TRIVIA_API_QUESTION_AMOUNT : Nat
  LOBBY_EXPIRE_SECONDS : Nat

/-- The Lobby record from models.py. users is an insertion-ordered
association list, as a Python dict. -/
structure Lobby where
  name : String
  ready_count : Nat := 0
  users : List (UserId × PlayerData) := []
  current_answer_count : Nat := 0
  current_question_count : Nat := 0
  state : LobbyState := LobbyState.WAITING
  ranked : Bool := false
  trivia_token : String := ""
  correct_answers : List CorrectAnswer := []
  game_start_time : Int := 0
  question_start_time : Int := 0
deriving DecidableEq, Repr

/-- The per-connection fields of GameConsumer set in its constructor. -/
structure ConnState where
  user_id : Option UserId := none
  fifty_used : Bool := false
  ready_sent : Bool := false
  question_answered : Bool := false
deriving DecidableEq, Repr

/-- A row of the relational user table, as far as the engine touches it. -/
structure UserRec where
  pk : UserId
  username : String
  rank : Int
deriving DecidableEq, Repr

/-- One entry of the game.end payload. -/
structure UserStatusEntry where
  status : GameStatus
  rank_gain : Int
deriving DecidableEq, Repr

/-- FormattedQuestion from types.py (wire shape of question.data entries). -/
structure FormattedQuestion where
  category : String
  question : String
  answers : List String
  difficulty : Difficulty
  duration : Nat
deriving DecidableEq, Repr

/-- Server-to-client events emitted by the consumer. -/
inductive Event
  | gamePrepare
  | gameStart (users : List (UserId × String)) (duration : Nat)
  | questionData (questions : List FormattedQuestion)
  | questionNext
  | userAnswered (user_id : Option UserId) (correctly : Bool) (correct_answer : String) (damage : Int)
  | gameEnd (users : List (UserId × UserStatusEntry))
  | fiftyResponse (incorrect_answers : List String)
deriving DecidableEq, Repr

/-- Python exceptions that can escape the embedded code paths. -/
inductive PyError
  | notFoundError
  | keyError
  | indexError
  | typeError
  | validationError
  | stopIteration
deriving DecidableEq, Repr

/-- Output of one engine operation: the connection state, the lobby store
entry, the two relational user rows, the messages sent to the requesting
socket only (send_json), the messages broadcast to the lobby group
(send_event_to_lobby), and the exception that escaped, if any. -/
structure EngineOut where
  conn : ConnState
  store : Option Lobby
  u1 : UserRec
  u2 : UserRec
  toSelf : List Event := []
  toLobby : List Event := []
  usersMem : List (UserId × PlayerData) := []
  err : Option PyError := none
deriving DecidableEq, Repr

/-- The inputs the engine reads from the outside world during one handler
run: two successive clock reads, the trivia API results and the
random.sample behaviour. -/
structure Oracles where
  nowA : Int
  nowB : Int
  trivia_token : String
  newFormatted : List FormattedQuestion
  newAnswers : List CorrectAnswer
  sample : List String → List String

/-- Decoded payload of a lobby join token (utils.py, generate_lobby_token).
The HS256 signature is not modelled; the payload is the token. -/
structure TokenPayload where
  id : UserId
  username : String
  lobby_name : String
  exp : Int
deriving DecidableEq, Repr

/-- utils.py generate_lobby_token(user, lobby_name): payload carries the user
id, the username, the lobby name and an expiry five seconds from now. -/
def generate_lobby_token (now : Int) (user : UserRec) (lobby_name : String) : TokenPayload :=
  { id := user.pk
    username := user.username
    lobby_name := lobby_name
    exp := now + 5 }

/-- A Python call site of generate_lobby_token: the second positional
parameter has no default, so a call that omits it raises TypeError before
the body runs. -/
def generate_lobby_token_call (now : Int) (user : UserRec) (lobby_name : Option String) :
    Except PyError TokenPayload :=
  match lobby_name with
  | some n => Except.ok (generate_lobby_token now user n)
  | none => Except.error PyError.typeError

/-- views.py LobbyViewSet.create: validate (name collision fails), build and
save the WAITING lobby with an expiration, then mint the token. The source
line 37 reads token = generate_lobby_token(request.user), omitting the
required lobby_name argument, which is embedded as the none argument of
generate_lobby_token_call. -/
def LobbyViewSet_create (now : Int) (user : UserRec) (existing : Option Lobby)
    (name : String) (ranked : Bool) : Except PyError (Lobby × TokenPayload) :=
  if existing.isSome then
    Except.error PyError.validationError
  else
    let lobby : Lobby := { name := name, ranked := ranked }
    (generate_lobby_token_call now user none).map (fun tok => (lobby, tok))

/-- views.py LobbyViewSet.join: 404 when the lobby is absent, 400 when it is
full or the caller already occupies it, otherwise mint the token. The source
line 90 also calls generate_lobby_token(request.user) without the required
lobby_name argument. -/
def LobbyViewSet_join (now : Int) (user : UserRec) (store : Option Lobby) :
    Except PyError TokenPayload :=
  match store with
  | none => Except.error PyError.notFoundError
  | some lobby =>
    if lobby.users.length > 1 then
      Except.error PyError.validationError
    else if (lobby.users.map Prod.fst).contains user.pk then
      Except.error PyError.validationError
    else
      generate_lobby_token_call now user none

/-- consumers.py GameConsumer.connect, lines 83 to 131. The websocket
handshake on /lobbies/(name) with the raw query string as token. A token
that fails signature or expiry verification decodes to none (InvalidTokenError
branch). Returns none on DenyConnection; on AcceptConnection returns the
saved lobby, the connection state with user_id remembered, and the events
broadcast to the group. -/
def connect (conn : ConnState) (store : Option Lobby) (path_name : String)
    (token : Option TokenPayload) : Option (Lobby × ConnState × List Event) :=
  match store with
  | none => none
  | some lobby =>
    if lobby.users.length > 1 then none
    else
      match token with
      | none => none
      | some token_data =>
        if token_data.lobby_name ≠ path_name then none
        else if (lobby.users.lookup token_data.id).isSome then none
        else
          let lobby := { lobby with
            users := lobby.users ++ [(token_data.id, { name := token_data.username, hp := 100 })] }
          let conn := { conn with user_id := some token_data.id }
          let events := if lobby.users.length = 2 then [Event.gamePrepare] else []
          some (lobby, conn, events)

/-- consumers.py determine_rank_gain_by_game_status, lines 454 to 461. -/
def determine_rank_gain_by_game_status (s : Settings) : GameStatus → Int
  | GameStatus.WIN => s.GAME_RANK_GAIN
  | GameStatus.LOSS => -s.GAME_RANK_GAIN
  | GameStatus.DRAW => 0

/-- consumers.py determine_user_status_by_hp, lines 428 to 452: equal hp is a
draw for both, otherwise the higher hp wins. IndexError when fewer than two
users are passed. -/
def determine_user_status_by_hp : List (UserId × Int) → Except PyError (List (UserId × GameStatus))
  | (id1, hp1) :: (id2, hp2) :: _ =>
    if hp1 = hp2 then Except.ok [(id1, GameStatus.DRAW), (id2, GameStatus.DRAW)]
    else if hp1 > hp2 then Except.ok [(id1, GameStatus.WIN), (id2, GameStatus.LOSS)]
    else Except.ok [(id1, GameStatus.LOSS), (id2, GameStatus.WIN)]
  | _ => Except.error PyError.indexError

/-- consumers.py handle_game_end, lines 353 to 383: re-fetch the lobby from
the store, set state FINISHED and save, look both statuses up by primary
key, update ranks when the lobby is ranked, then broadcast game.end. The
Game and UserGame row writes are not modelled. -/
def handle_game_end (s : Settings) (store : Option Lobby)
    (statuses : List (UserId × GameStatus)) (u1 u2 : UserRec) :
    Option Lobby × UserRec × UserRec × List Event × Option PyError :=
  match store with
  | none => (none, u1, u2, [], some PyError.notFoundError)
  | some lobby =>
    let lobby := { lobby with state := LobbyState.FINISHED }
    match statuses.lookup u1.pk, statuses.lookup u2.pk with
    | some st1, some st2 =>
      let g1 := determine_rank_gain_by_game_status s st1
      let g2 := determine_rank_gain_by_game_status s st2
      let u1' := if lobby.ranked then { u1 with rank := max (u1.rank + g1) 0 } else u1
      let u2' := if lobby.ranked then { u2 with rank := max (u2.rank + g2) 0 } else u2
      (some lobby, u1', u2',
        [Event.gameEnd [(u1.pk, { status := st1, rank_gain := g1 }),
                        (u2.pk, { status := st2, rank_gain := g2 })]], none)
    | _, _ => (some lobby, u1, u2, [], some PyError.keyError)

/-- consumers.py receive_game_ready, lines 188 to 230. On the second ready:
take a trivia session token, set IN_PROGRESS, record game_start_time,
broadcast game.start with each user mapped to the opponent name, fetch and
broadcast question.data, record question_start_time, broadcast
question.next, save. -/
def receive_game_ready (s : Settings) (conn : ConnState) (store : Option Lobby)
    (u1 u2 : UserRec) (o : Oracles) : EngineOut :=
  match store with
  | none => { conn := conn, store := store, u1 := u1, u2 := u2, err := some PyError.notFoundError }
  | some lobby =>
    if lobby.users.length ≠ 2 ∨ lobby.ready_count ≥ 2 ∨ conn.ready_sent then
      { conn := conn, store := store, u1 := u1, u2 := u2 }
    else
      let lobby := { lobby with ready_count := lobby.ready_count + 1 }
      let conn := { conn with ready_sent := true }
      if lobby.ready_count = 1 then
        { conn := conn, store := some lobby, u1 := u1, u2 := u2 }
      else
        let lobby := { lobby with
          trivia_token := o.trivia_token
          state := LobbyState.IN_PROGRESS
          game_start_time := o.nowA }
        let keys := lobby.users.map Prod.fst
        let startEvent := Event.gameStart
          ((keys.zip keys.reverse).map (fun p =>
            (p.1, (((lobby.users.lookup p.2).map PlayerData.name).getD ""))))
          s.GAME_MAX_DURATION_SECONDS
        let lobby := { lobby with correct_answers := o.newAnswers }
        let lobby := { lobby with question_start_time := o.nowB }
        { conn := conn, store := some lobby, u1 := u1, u2 := u2
          toLobby := [startEvent, Event.questionData o.newFormatted, Event.questionNext] }

/-- Subtract damage from the hp of the entry of uid, as the in-place Python
mutation of the users dict entry. -/
def applyDamage (users : List (UserId × PlayerData)) (uid : UserId) (damage : Int) :
    List (UserId × PlayerData) :=
  users.map (fun p =>
    (p.1, if p.1 = uid then { p.2 with hp := p.2.hp - damage } else p.2))

/-- consumers.py receive_question_answered, lines 274 to 314 (the part after
the correctness and damage step): broadcast user.answered, then either wait
for the peer, end the game, or advance to the next question. lobby is the
in-memory object fetched at the start of the handler; users is its users
dict after the damage step; store still holds the record as of the last
save (the handler has not saved yet, so handle_game_end re-fetches the
record without the damage of this answer). -/
def answeredTail (s : Settings) (conn : ConnState) (store : Option Lobby) (lobby : Lobby)
    (u1 u2 : UserRec) (o : Oracles) (correct_answer : CorrectAnswer)
    (damage : Int) (correctly : Bool) (users : List (UserId × PlayerData)) : EngineOut :=
  let answeredEvent :=
    Event.userAnswered conn.user_id correctly correct_answer.answer damage
  let lobby := { lobby with users := users }
  if lobby.current_answer_count = 0 then
    { conn := conn
      store := some { lobby with current_answer_count := lobby.current_answer_count + 1 }
      u1 := u1, u2 := u2, toLobby := [answeredEvent], usersMem := users }
  else if lobby.users.any (fun p => p.2.hp ≤ 0) ∨
      o.nowB > lobby.game_start_time + (s.GAME_MAX_DURATION_SECONDS : Int) then
    match determine_user_status_by_hp (lobby.users.map (fun p => (p.1, p.2.hp))) with
    | Except.error e =>
      { conn := conn, store := store, u1 := u1, u2 := u2
        toLobby := [answeredEvent], usersMem := users, err := some e }
    | Except.ok statuses =>
      let r := handle_game_end s store statuses u1 u2
      { conn := conn, store := r.1, u1 := r.2.1, u2 := r.2.2.1
        toLobby := [answeredEvent] ++ r.2.2.2.1, usersMem := users, err := r.2.2.2.2 }
  else
    let advanced :=
      if (lobby.current_question_count : Int) = (s.TRIVIA_API_QUESTION_AMOUNT : Int) - 1 then
        ({ lobby with current_question_count := 0, correct_answers := o.newAnswers },
          [Event.questionData o.newFormatted])
      else
        ({ lobby with current_question_count := lobby.current_question_count + 1 },
          ([] : List Event))
    let lobby := { advanced.1 with current_answer_count := 0, question_start_time := o.nowB }
    { conn := conn, store := some lobby, u1 := u1, u2 := u2
      toLobby := [answeredEvent] ++ advanced.2 ++ [Event.questionNext], usersMem := users }

/-- consumers.py receive_question_answered, lines 232 to 314. The answer
field of the event is answer (none when the key is missing, in which case
the subscript raises KeyError). nowA is the clock read of the correctness
check, nowB the later reads of the terminal check and of the new
question_start_time. o supplies the fresh batch fetched when the current
one is exhausted. usersMem records the in-memory users dict right after the
damage step (the broadcast point). -/
def receive_question_answered (s : Settings) (conn : ConnState) (store : Option Lobby)
    (answer : Option String) (u1 u2 : UserRec) (o : Oracles) : EngineOut :=
  match store with
  | none => { conn := conn, store := store, u1 := u1, u2 := u2, err := some PyError.notFoundError }
  | some lobby =>
    if conn.question_answered then
      { conn := conn, store := store, u1 := u1, u2 := u2, usersMem := lobby.users }
    else
      let conn := { conn with question_answered := true }
      match lobby.correct_answers.get? lobby.current_question_count with
      | none =>
        { conn := conn, store := store, u1 := u1, u2 := u2, usersMem := lobby.users
          err := some PyError.indexError }
      | some correct_answer =>
        let question_max_duration : Int := s.QUESTION_MAX_DURATION_SECONDS_MAP correct_answer.difficulty
        match answer with
        | none =>
          { conn := conn, store := store, u1 := u1, u2 := u2, usersMem := lobby.users
            err := some PyError.keyError }
        | some answer =>
          let wrong : Bool :=
            decide (answer ≠ correct_answer.answer) ||
              decide (o.nowA > lobby.question_start_time + question_max_duration)
          if wrong then
            match conn.user_id with
            | none =>
              { conn := conn, store := store, u1 := u1, u2 := u2, usersMem := lobby.users
                err := some PyError.keyError }
            | some uid =>
              if (lobby.users.lookup uid).isSome then
                let damage : Int := s.QUESTION_DIFFICULTY_DAMAGE_MAP correct_answer.difficulty
                answeredTail s conn store lobby u1 u2 o correct_answer damage false
                  (applyDamage lobby.users uid damage)
              else
                { conn := conn, store := store, u1 := u1, u2 := u2, usersMem := lobby.users
                  err := some PyError.keyError }
          else
            answeredTail s conn store lobby u1 u2 o correct_answer 0 true lobby.users

/-- consumers.py receive_fifty_request, lines 316 to 343. The one-shot flag
is set before any validation. answers is the answers field of the event
(none when the key is missing: KeyError). The response goes through
send_json, so it lands in toSelf, never in toLobby. o.sample embeds
random.sample(population, k=2). -/
def receive_fifty_request (conn : ConnState) (store : Option Lobby)
    (answers : Option (List String)) (u1 u2 : UserRec) (o : Oracles) : EngineOut :=
  if conn.fifty_used then
    { conn := conn, store := store, u1 := u1, u2 := u2 }
  else
    let conn := { conn with fifty_used := true }
    match store with
    | none => { conn := conn, store := store, u1 := u1, u2 := u2, err := some PyError.notFoundError }
    | some lobby =>
      match lobby.correct_answers.get? lobby.current_question_count with
      | none =>
        { conn := conn, store := store, u1 := u1, u2 := u2, err := some PyError.indexError }
      | some entry =>
        let correct_answer := entry.answer
        if correct_answer = "True" ∨ correct_answer = "False" then
          { conn := conn, store := store, u1 := u1, u2 := u2 }
        else
          match answers with
          | none =>
            { conn := conn, store := store, u1 := u1, u2 := u2, err := some PyError.keyError }
          | some answers =>
          if answers.length ≠ 4 then
            { conn := conn, store := store, u1 := u1, u2 := u2 }
          else
            let incorrect_answers := answers.filter (fun a => a ≠ correct_answer)
            if incorrect_answers.length ≠ 3 then
              { conn := conn, store := store, u1 := u1, u2 := u2 }
            else
              { conn := conn, store := store, u1 := u1, u2 := u2
                toSelf := [Event.fiftyResponse (o.sample incorrect_answers)] }

/-- Client-to-server messages as dispatched by receive_json. A missing
payload field is none. unknown covers both a message without a type field
and one with an unrecognized type. -/
inductive ClientMsg
  | gameReady
  | questionAnswered (answer : Option String)
  | fiftyRequest (answers : Option (List String))
  | unknown
deriving DecidableEq

/-- consumers.py receive_json, lines 168 to 186: dispatch on the type field;
a missing or unrecognized type returns silently. -/
def receive_json (s : Settings) (conn : ConnState) (store : Option Lobby)
    (u1 u2 : UserRec) (o : Oracles) : ClientMsg → EngineOut
  | ClientMsg.gameReady => receive_game_ready s conn store u1 u2 o
  | ClientMsg.questionAnswered answer => receive_question_answered s conn store answer u1 u2 o
  | ClientMsg.fiftyRequest answers => receive_fifty_request conn store answers u1 u2 o
  | ClientMsg.unknown => { conn := conn, store := store, u1 := u1, u2 := u2 }

/-- consumers.py disconnect, lines 133 to 166. With no recorded user_id the
handler does nothing. If the lobby has a single user left, it is deleted.
If the game is in progress, a game end is synthesized with this user LOSS
and the opponent WIN via handle_game_end (which re-fetches from the store,
sets FINISHED and saves), and then the user entry is deleted from the
lobby object fetched at the start of the handler and that stale object is
saved, overwriting the record handle_game_end persisted. -/
def disconnect (s : Settings) (conn : ConnState) (store : Option Lobby)
    (u1 u2 : UserRec) : EngineOut :=
  match conn.user_id with
  | none => { conn := conn, store := store, u1 := u1, u2 := u2 }
  | some uid =>
    match store with
    | none => { conn := conn, store := store, u1 := u1, u2 := u2, err := some PyError.notFoundError }
    | some lobby =>
      if lobby.users.length = 1 then
        { conn := conn, store := none, u1 := u1, u2 := u2 }
      else if lobby.state = LobbyState.IN_PROGRESS then
        match (lobby.users.map Prod.fst).find? (fun user_id => user_id ≠ uid) with
        | none =>
          { conn := conn, store := store, u1 := u1, u2 := u2, err := some PyError.stopIteration }
        | some opponent_user_id =>
          let r := handle_game_end s store
            [(uid, GameStatus.LOSS), (opponent_user_id, GameStatus.WIN)] u1 u2
          match r.2.2.2.2 with
          | some e =>
            { conn := conn, store := r.1, u1 := r.2.1, u2 := r.2.2.1
              toLobby := r.2.2.2.1, err := some e }
          | none =>
            if (lobby.users.lookup uid).isSome then
              { conn := conn
                store := some { lobby with users := lobby.users.filter (fun p => p.1 ≠ uid) }
                u1 := r.2.1, u2 := r.2.2.1, toLobby := r.2.2.2.1 }
            else
              { conn := conn, store := r.1, u1 := r.2.1, u2 := r.2.2.1
                toLobby := r.2.2.2.1, err := some PyError.keyError }
      else
        if (lobby.users.lookup uid).isSome then
          { conn := conn
            store := some { lobby with users := lobby.users.filter (fun p => p.1 ≠ uid) }
            u1 := u1, u2 := u2 }
        else
          { conn := conn, store := store, u1 := u1, u2 := u2, err := some PyError.keyError }

/-- Concrete configuration used by witnesses and counterexamples, with the
damage values the spec gives as examples (10/20/30) and a batch size of 10. -/
def sampleSettings : Settings :=
  { QUESTION_MAX_DURATION_SECONDS_MAP := fun d =>
      match d with
      | Difficulty.easy => 10
      | Difficulty.medium => 15
      | Difficulty.hard => 20
    QUESTION_DIFFICULTY_DAMAGE_MAP := fun d =>
      match d with
      | Difficulty.easy => 10
      | Difficulty.medium => 20
      | Difficulty.hard => 30
    GAME_MAX_DURATION_SECONDS := 300
    GAME_RANK_GAIN := 20
    TRIVIA_API_QUESTION_AMOUNT := 10
    LOBBY_EXPIRE_SECONDS := 60 }

/-- Concrete external inputs for witnesses: both clock reads at 0, an empty
fresh batch, and a sampler that keeps the first two elements (one possible
behaviour of random.sample with k = 2). -/
def sampleOracles : Oracles :=
  { nowA := 0
    nowB := 0
    trivia_token := "tok"
    newFormatted := []
    newAnswers := []
    sample := fun l => l.take 2 }

def userAlice : UserRec := { pk := 1, username := "alice", rank := 1000 }

def userBob : UserRec := { pk := 2, username := "bob", rank := 1000 }

/-- C1: the spec says create-lobby and join-lobby each mint and return a
token whose payload carries the caller and the lobby name with a five
second lifetime. generate_lobby_token does build that payload, but both
view call sites omit the required lobby_name argument, so the calls raise
TypeError and neither endpoint returns a token: the code contradicts its
own tests, which expect 201 and 200 responses carrying a token and which
call generate_lobby_token with both arguments. -/
theorem C1_views_omit_lobby_name_so_token_call_raises
    (now : Int) (user : UserRec) (name : String) (ranked : Bool) (lobby : Lobby)
    (hlen : lobby.users.length ≤ 1)
    (hmem : (lobby.users.map Prod.fst).contains user.pk = false) :
    generate_lobby_token now user name =
      { id := user.pk, username := user.username, lobby_name := name, exp := now + 5 } ∧
    LobbyViewSet_create now user none name ranked = Except.error PyError.typeError ∧
    LobbyViewSet_join now user (some lobby) = Except.error PyError.typeError := by
  refine ⟨rfl, rfl, ?_⟩
  have h1 : ¬ lobby.users.length > 1 := by omega
  have h2 : ¬ ((lobby.users.map Prod.fst).contains user.pk = true) := by
    rw [hmem]
    decide
  simp only [LobbyViewSet_join]
  rw [if_neg h1, if_neg h2]
  rfl

/-- Witness for C1 at a concrete input: an empty lobby named L1 and user
alice. -/
theorem C1_views_omit_lobby_name_so_token_call_raises_witness :
    ({ name := "L1" } : Lobby).users.length ≤ 1 ∧
    generate_lobby_token 0 userAlice "L1" =
      { id := 1, username := "alice", lobby_name := "L1", exp := 5 } ∧
    LobbyViewSet_create 0 userAlice none "L1" false = Except.error PyError.typeError ∧
    LobbyViewSet_join 0 userAlice (some { name := "L1" }) = Except.error PyError.typeError := by
  refine ⟨by decide, ?_⟩
  have h := C1_views_omit_lobby_name_so_token_call_raises 0 userAlice "L1" false
    { name := "L1" } (by decide) (by decide)
  exact ⟨h.1, h.2.1, h.2.2⟩

/-- The websocket handshake denial condition as the claim states it: the
lobby does not exist, or already holds more than one user, or the token
fails verification, or names a different lobby, or its id already occupies
the lobby. -/
def connectDeniedSpec (store : Option Lobby) (path_name : String)
    (token : Option TokenPayload) : Bool :=
  match store with
  | none => true
  | some lobby =>
    decide (lobby.users.length > 1) ||
      match token with
      | none => true
      | some td =>
        decide (td.lobby_name ≠ path_name) || (lobby.users.lookup td.id).isSome

/-- C8: connect denies exactly when the lobby is absent, it holds more than
one user, the token fails verification, the token names another lobby, or
the token id already occupies the lobby; otherwise it appends
users[token.id] = (token.username, hp 100) and accepts. -/
theorem C8_connect_denial_iff_and_accept_inserts
    (conn : ConnState) (store : Option Lobby) (path_name : String)
    (token : Option TokenPayload) :
    (connect conn store path_name token = none ↔
      connectDeniedSpec store path_name token = true) ∧
    (∀ lobby td, store = some lobby → token = some td →
      connectDeniedSpec store path_name token = false →
      connect conn store path_name token =
        some ({ lobby with users :=
                  lobby.users ++ [(td.id, ({ name := td.username, hp := 100 } : PlayerData))] },
              { conn with user_id := some td.id },
              if (lobby.users ++ [(td.id, ({ name := td.username, hp := 100 } : PlayerData))]).length = 2
              then [Event.gamePrepare] else [])) := by
  constructor
  · match store with
    | none => simp [connect, connectDeniedSpec]
    | some lobby =>
      match token with
      | none => simp [connect, connectDeniedSpec]
      | some td =>
        simp only [connect, connectDeniedSpec]
        by_cases h1 : lobby.users.length > 1
        · simp [h1]
        · by_cases h2 : td.lobby_name = path_name
          · by_cases h3 : (lobby.users.lookup td.id).isSome
            · simp [h1, h2, h3]
            · simp [h1, h2, h3]
          · simp [h1, h2]
  · intro lobby td hs ht hden
    subst hs
    subst ht
    simp only [connectDeniedSpec, Bool.or_eq_false_iff, decide_eq_false_iff_not] at hden
    simp [connect, hden.1, hden.2.1, hden.2.2]

/-- A one-user lobby, used by concrete witnesses. -/
def lobbyL1 : Lobby :=
  { name := "L1", users := [(1, { name := "alice", hp := 100 })] }

/-- A join token for bob and lobby L1, used by concrete witnesses. -/
def tokenBob : TokenPayload :=
  { id := 2, username := "bob", lobby_name := "L1", exp := 5 }

/-- Witness for C8: a one-user lobby accepts bob with a matching token and
broadcasts game.prepare; with a mismatched lobby name it denies. -/
theorem C8_connect_denial_iff_and_accept_inserts_witness :
    (connect {} (some lobbyL1) "L1" (some tokenBob) =
      some ({ name := "L1",
              users := [(1, { name := "alice", hp := 100 }),
                        (2, { name := "bob", hp := 100 })] },
            { user_id := some 2 }, [Event.gamePrepare])) ∧
    connect {} (some lobbyL1) "L2" (some tokenBob) = none := by
  constructor
  · have h := (C8_connect_denial_iff_and_accept_inserts {}
      (some lobbyL1) "L1" (some tokenBob)).2 lobbyL1 tokenBob rfl rfl (by decide)
    simpa [lobbyL1, tokenBob] using h
  · exact (C8_connect_denial_iff_and_accept_inserts {}
      (some lobbyL1) "L2" (some tokenBob)).1.mpr (by decide)

/-- C7: the rank delta is plus GAME_RANK_GAIN for WIN, minus it for LOSS and
0 for DRAW; ranks are written only when the lobby is ranked, and then each
becomes max(rank + delta, 0), which is never negative; an unranked game
leaves both user rows unchanged. -/
theorem C7_rank_gain_and_ranked_update
    (s : Settings) (lobby : Lobby) (statuses : List (UserId × GameStatus))
    (u1 u2 : UserRec) (st1 st2 : GameStatus)
    (h1 : statuses.lookup u1.pk = some st1)
    (h2 : statuses.lookup u2.pk = some st2) :
    (determine_rank_gain_by_game_status s GameStatus.WIN = s.GAME_RANK_GAIN ∧
     determine_rank_gain_by_game_status s GameStatus.LOSS = -s.GAME_RANK_GAIN ∧
     determine_rank_gain_by_game_status s GameStatus.DRAW = 0) ∧
    (let r := handle_game_end s (some lobby) statuses u1 u2
     (lobby.ranked = true →
        r.2.1.rank = max (u1.rank + determine_rank_gain_by_game_status s st1) 0 ∧
        r.2.2.1.rank = max (u2.rank + determine_rank_gain_by_game_status s st2) 0 ∧
        0 ≤ r.2.1.rank ∧ 0 ≤ r.2.2.1.rank) ∧
     (lobby.ranked = false → r.2.1 = u1 ∧ r.2.2.1 = u2)) := by
  refine ⟨⟨rfl, rfl, rfl⟩, ?_, ?_⟩
  · intro hr
    simp [handle_game_end, h1, h2, hr, le_max_right]
  · intro hr
    simp [handle_game_end, h1, h2, hr]

/-- Witness for C7: a ranked loss from rank 10 with gain 20 floors at 0, and
the unranked variant leaves ranks untouched. -/
theorem C7_rank_gain_and_ranked_update_witness :
    (handle_game_end sampleSettings
        (some { name := "L1", ranked := true })
        [(1, GameStatus.LOSS), (2, GameStatus.WIN)]
        { pk := 1, username := "alice", rank := 10 } userBob).2.1.rank = 0 ∧
    (handle_game_end sampleSettings
        (some { name := "L1", ranked := false })
        [(1, GameStatus.LOSS), (2, GameStatus.WIN)]
        { pk := 1, username := "alice", rank := 10 } userBob).2.1.rank = 10 := by
  constructor
  · have h := (C7_rank_gain_and_ranked_update sampleSettings
      { name := "L1", ranked := true }
      [(1, GameStatus.LOSS), (2, GameStatus.WIN)]
      { pk := 1, username := "alice", rank := 10 } userBob
      GameStatus.LOSS GameStatus.WIN (by decide) (by decide)).2.1 rfl
    simpa [sampleSettings, determine_rank_gain_by_game_status] using h.1
  · have h := (C7_rank_gain_and_ranked_update sampleSettings
      { name := "L1", ranked := false }
      [(1, GameStatus.LOSS), (2, GameStatus.WIN)]
      { pk := 1, username := "alice", rank := 10 } userBob
      GameStatus.LOSS GameStatus.WIN (by decide) (by decide)).2.2 rfl
    exact congrArg UserRec.rank h.1

theorem lookup_applyDamage (users : List (UserId × PlayerData)) (uid uidq : UserId) (d : Int) :
    (applyDamage users uid d).lookup uidq =
      (users.lookup uidq).map
        (fun pd => if uidq = uid then { pd with hp := pd.hp - d } else pd) := by
  induction users with
  | nil => rfl
  | cons p t ih =>
    obtain ⟨k, v⟩ := p
    by_cases hq : uidq = k
    · subst hq
      by_cases hk : uidq = uid
      · simp [applyDamage, List.lookup, hk]
      · simp [applyDamage, List.lookup, hk]
    · have hbeq : (uidq == k) = false := by simpa using hq
      simp only [applyDamage, List.map_cons, List.lookup, hbeq]
      exact ih

theorem applyDamage_hp_le (users : List (UserId × PlayerData)) (uid uidq : UserId) (d : Int)
    (hd : 0 ≤ d) (pd' : PlayerData)
    (h : (applyDamage users uid d).lookup uidq = some pd') :
    ∃ pd, users.lookup uidq = some pd ∧ pd'.hp ≤ pd.hp := by
  rw [lookup_applyDamage] at h
  cases hu : users.lookup uidq with
  | none => rw [hu] at h; simp at h
  | some pd =>
    rw [hu] at h
    simp only [Option.map_some'] at h
    refine ⟨pd, rfl, ?_⟩
    by_cases hq : uidq = uid
    · rw [if_pos hq] at h
      cases h
      simp only
      omega
    · rw [if_neg hq] at h
      cases h
      exact le_refl _

/-- The lobby record handle_game_end leaves in the store: the re-fetched
record with state FINISHED, whatever the status lookups do. -/
theorem handle_game_end_store (s : Settings) (lobby0 : Lobby)
    (statuses : List (UserId × GameStatus)) (u1 u2 : UserRec) :
    (handle_game_end s (some lobby0) statuses u1 u2).1 =
      some { lobby0 with state := LobbyState.FINISHED } := by
  unfold handle_game_end
  cases statuses.lookup u1.pk <;> cases statuses.lookup u2.pk <;> rfl

/-- In every branch of the tail of the answer handler, the recorded
in-memory users dict is the one passed in, and the stored record keeps
either those users or the users of the record that was last saved. -/
theorem answeredTail_usersMem_and_store (s : Settings) (conn : ConnState)
    (lobby0 lobby : Lobby) (u1 u2 : UserRec) (o : Oracles) (ca : CorrectAnswer)
    (damage : Int) (correctly : Bool) (users : List (UserId × PlayerData)) :
    (answeredTail s conn (some lobby0) lobby u1 u2 o ca damage correctly users).usersMem
        = users ∧
    (∀ lobby', (answeredTail s conn (some lobby0) lobby u1 u2 o ca damage correctly
        users).store = some lobby' →
      lobby'.users = users ∨ lobby'.users = lobby0.users) := by
  unfold answeredTail
  by_cases h1 : ({ lobby with users := users } : Lobby).current_answer_count = 0
  · rw [if_pos h1]
    exact ⟨rfl, fun lobby' h => by cases h; exact Or.inl rfl⟩
  · rw [if_neg h1]
    by_cases h2 : ({ lobby with users := users } : Lobby).users.any (fun p => p.2.hp ≤ 0) ∨
        o.nowB > ({ lobby with users := users } : Lobby).game_start_time +
          (s.GAME_MAX_DURATION_SECONDS : Int)
    · rw [if_pos h2]
      cases hst : determine_user_status_by_hp
          (({ lobby with users := users } : Lobby).users.map (fun p => (p.1, p.2.hp))) with
      | error e => exact ⟨rfl, fun lobby' h => by cases h; exact Or.inr rfl⟩
      | ok statuses =>
        refine ⟨rfl, fun lobby' h => ?_⟩
        simp only [handle_game_end_store] at h
        cases h
        exact Or.inr rfl
    · rw [if_neg h2]
      by_cases h3 : (({ lobby with users := users } : Lobby).current_question_count : Int) =
          (s.TRIVIA_API_QUESTION_AMOUNT : Int) - 1
      · rw [if_pos h3]
        exact ⟨rfl, fun lobby' h => by cases h; exact Or.inl rfl⟩
      · rw [if_neg h3]
        exact ⟨rfl, fun lobby' h => by cases h; exact Or.inl rfl⟩

/-- Case analysis of the answer handler on an existing lobby: the in-memory
users dict is either untouched or has one non-negative damage applied, and
any stored record carries either that dict or the previously saved one. -/
theorem rqa_users_cases (s : Settings) (conn : ConnState) (lobby : Lobby)
    (answer : Option String) (u1 u2 : UserRec) (o : Oracles) :
    ((receive_question_answered s conn (some lobby) answer u1 u2 o).usersMem = lobby.users ∨
      ∃ uid d, 0 ≤ d ∧
        (receive_question_answered s conn (some lobby) answer u1 u2 o).usersMem =
          applyDamage lobby.users uid d) ∧
    (∀ lobby',
      (receive_question_answered s conn (some lobby) answer u1 u2 o).store = some lobby' →
      lobby'.users = (receive_question_answered s conn (some lobby) answer u1 u2 o).usersMem ∨
        lobby'.users = lobby.users) := by
  simp only [receive_question_answered]
  by_cases hqa : conn.question_answered = true
  · rw [if_pos hqa]
    exact ⟨Or.inl rfl, fun lobby' h => by cases h; exact Or.inr rfl⟩
  · rw [if_neg hqa]
    cases hca : lobby.correct_answers.get? lobby.current_question_count with
    | none => exact ⟨Or.inl rfl, fun lobby' h => by cases h; exact Or.inr rfl⟩
    | some ca =>
      cases answer with
      | none => exact ⟨Or.inl rfl, fun lobby' h => by cases h; exact Or.inr rfl⟩
      | some a =>
        dsimp only
        by_cases hw : (decide (a ≠ ca.answer) ||
            decide (o.nowA > lobby.question_start_time +
              (s.QUESTION_MAX_DURATION_SECONDS_MAP ca.difficulty : Int))) = true
        · rw [if_pos hw]
          cases huid : conn.user_id with
          | none => exact ⟨Or.inl rfl, fun lobby' h => by cases h; exact Or.inr rfl⟩
          | some uid =>
            dsimp only
            by_cases hmem : (lobby.users.lookup uid).isSome = true
            · rw [if_pos hmem]
              have h := answeredTail_usersMem_and_store s
                { user_id := some uid, fifty_used := conn.fifty_used
                  ready_sent := conn.ready_sent, question_answered := true }
                lobby lobby u1 u2 o ca
                (s.QUESTION_DIFFICULTY_DAMAGE_MAP ca.difficulty) false
                (applyDamage lobby.users uid (s.QUESTION_DIFFICULTY_DAMAGE_MAP ca.difficulty))
              refine ⟨Or.inr ⟨uid, s.QUESTION_DIFFICULTY_DAMAGE_MAP ca.difficulty,
                Int.ofNat_nonneg _, h.1⟩, fun lobby' hst => ?_⟩
              rcases h.2 lobby' hst with h' | h'
              · rw [h.1]; exact Or.inl h'
              · exact Or.inr h'
            · rw [if_neg hmem]
              exact ⟨Or.inl rfl, fun lobby' h => by cases h; exact Or.inr rfl⟩
        · rw [if_neg hw]
          have h := answeredTail_usersMem_and_store s
            { conn with question_answered := true } lobby lobby u1 u2 o ca 0 true lobby.users
          refine ⟨Or.inl h.1, fun lobby' hst => ?_⟩
          rcases h.2 lobby' hst with h' | h'
          · rw [h.1]; exact Or.inl h'
          · exact Or.inr h'

/-- C2 (amended): every user enters a lobby with hp 100 at connect, and the
answer handler only ever lowers hp (never raises it), both in the in-memory
dict and in whatever record it stores, so hp stays at most 100; the
subtraction is not floored at 0, so hp can become negative (see the
counterexample). -/
theorem C2_hp_initialized_and_nonincreasing (s : Settings) (conn : ConnState)
    (lobby : Lobby) (answer : Option String) (u1 u2 : UserRec) (o : Oracles) :
    (∀ (c0 : ConnState) (path : String) (td : TokenPayload) result,
       connect c0 (some lobby) path (some td) = some result →
       result.1.users = lobby.users ++ [(td.id, { name := td.username, hp := 100 })]) ∧
    (∀ uidq pd',
       (receive_question_answered s conn (some lobby) answer u1 u2 o).usersMem.lookup uidq =
         some pd' →
       ∃ pd, lobby.users.lookup uidq = some pd ∧ pd'.hp ≤ pd.hp) ∧
    (∀ lobby' uidq pd',
       (receive_question_answered s conn (some lobby) answer u1 u2 o).store = some lobby' →
       lobby'.users.lookup uidq = some pd' →
       ∃ pd, lobby.users.lookup uidq = some pd ∧ pd'.hp ≤ pd.hp) := by
  have hmem : ∀ uidq pd',
      (receive_question_answered s conn (some lobby) answer u1 u2 o).usersMem.lookup uidq =
        some pd' →
      ∃ pd, lobby.users.lookup uidq = some pd ∧ pd'.hp ≤ pd.hp := by
    intro uidq pd' h
    rcases (rqa_users_cases s conn lobby answer u1 u2 o).1 with hc | ⟨uid, d, hd, hc⟩
    · rw [hc] at h
      exact ⟨pd', h, le_refl _⟩
    · rw [hc] at h
      exact applyDamage_hp_le lobby.users uid uidq d hd pd' h
  refine ⟨?_, hmem, ?_⟩
  · intro c0 path td result h
    simp only [connect] at h
    by_cases h1 : lobby.users.length > 1
    · rw [if_pos h1] at h; cases h
    · rw [if_neg h1] at h
      by_cases h2 : td.lobby_name ≠ path
      · rw [if_pos h2] at h; cases h
      · rw [if_neg h2] at h
        by_cases h3 : (lobby.users.lookup td.id).isSome = true
        · rw [if_pos h3] at h; cases h
        · rw [if_neg h3] at h
          cases h
          rfl
  · intro lobby' uidq pd' hst h
    rcases (rqa_users_cases s conn lobby answer u1 u2 o).2 lobby' hst with hc | hc
    · rw [hc] at h
      exact hmem uidq pd' h
    · rw [hc] at h
      exact ⟨pd', h, le_refl _⟩

/-- A mid-game lobby in which alice has 10 hp and the current question is
hard (damage 30). -/
def c2lobby : Lobby :=
  { name := "L1"
    state := LobbyState.IN_PROGRESS
    users := [(1, { name := "alice", hp := 10 }), (2, { name := "bob", hp := 100 })]
    correct_answers := [{ answer := "Paris", difficulty := Difficulty.hard }]
    ready_count := 2 }

/-- Counterexample to C2 as stated: a wrong answer on a hard question at
10 hp drives hp to minus 20 in the in-memory dict and in the saved record;
the subtraction is not floored at 0. -/
theorem C2_hp_floor_counterexample :
    ((receive_question_answered sampleSettings { user_id := some 1 } (some c2lobby)
        (some "London") userAlice userBob sampleOracles).usersMem.lookup 1 =
      some { name := "alice", hp := -20 }) ∧
    ((receive_question_answered sampleSettings { user_id := some 1 } (some c2lobby)
        (some "London") userAlice userBob sampleOracles).store =
      some { c2lobby with
        users := [(1, { name := "alice", hp := -20 }), (2, { name := "bob", hp := 100 })]
        current_answer_count := 1 }) ∧
    ¬ (0 : Int) ≤ -20 := by
  exact ⟨rfl, rfl, by decide⟩

/-- Witness for C2: instantiating the amended hp theorem on the concrete
mid-game lobby shows the damaged value is bounded by the stored hp. -/
theorem C2_hp_initialized_and_nonincreasing_witness :
    ∃ pd, c2lobby.users.lookup 1 = some pd ∧
      ({ name := "alice", hp := -20 } : PlayerData).hp ≤ pd.hp :=
  (C2_hp_initialized_and_nonincreasing sampleSettings { user_id := some 1 } c2lobby
    (some "London") userAlice userBob sampleOracles).2.1 1 { name := "alice", hp := -20 } rfl

/-- The first broadcast of every branch of the answer tail is the
user.answered event itself. -/
theorem answeredTail_toLobby_head (s : Settings) (conn : ConnState)
    (lobby0 lobby : Lobby) (u1 u2 : UserRec) (o : Oracles) (ca : CorrectAnswer)
    (damage : Int) (correctly : Bool) (users : List (UserId × PlayerData)) :
    (answeredTail s conn (some lobby0) lobby u1 u2 o ca damage correctly users).toLobby.head? =
      some (Event.userAnswered conn.user_id correctly ca.answer damage) := by
  unfold answeredTail
  by_cases h1 : ({ lobby with users := users } : Lobby).current_answer_count = 0
  · rw [if_pos h1]; rfl
  · rw [if_neg h1]
    by_cases h2 : ({ lobby with users := users } : Lobby).users.any (fun p => p.2.hp ≤ 0) ∨
        o.nowB > ({ lobby with users := users } : Lobby).game_start_time +
          (s.GAME_MAX_DURATION_SECONDS : Int)
    · rw [if_pos h2]
      cases determine_user_status_by_hp
          (({ lobby with users := users } : Lobby).users.map (fun p => (p.1, p.2.hp))) with
      | error e => rfl
      | ok statuses => rfl
    · rw [if_neg h2]
      by_cases h3 : (({ lobby with users := users } : Lobby).current_question_count : Int) =
          (s.TRIVIA_API_QUESTION_AMOUNT : Int) - 1
      · rw [if_pos h3]; rfl
      · rw [if_neg h3]; rfl

/-- C3: an answer is scored correct exactly when it equals the stored
correct answer and the first clock read is at most question_start_time plus
the per-difficulty maximum duration; the broadcast user.answered event
reports damage DAMAGE(difficulty) and the senders hp drops by it when
wrong, and damage 0 with hp unchanged when right. -/
theorem C3_scoring_iff_and_damage (s : Settings) (conn : ConnState) (lobby : Lobby)
    (a : String) (u1 u2 : UserRec) (o : Oracles) (uid : UserId) (pd : PlayerData)
    (ca : CorrectAnswer)
    (hqa : conn.question_answered = false)
    (huid : conn.user_id = some uid)
    (hca : lobby.correct_answers.get? lobby.current_question_count = some ca)
    (hpd : lobby.users.lookup uid = some pd) :
    ∃ (correctly : Bool) (damage : Int),
      (receive_question_answered s conn (some lobby) (some a) u1 u2 o).toLobby.head? =
        some (Event.userAnswered (some uid) correctly ca.answer damage) ∧
      (correctly = true ↔ (a = ca.answer ∧ o.nowA ≤ lobby.question_start_time +
        (s.QUESTION_MAX_DURATION_SECONDS_MAP ca.difficulty : Int))) ∧
      damage = (if correctly = true then 0
        else (s.QUESTION_DIFFICULTY_DAMAGE_MAP ca.difficulty : Int)) ∧
      (receive_question_answered s conn (some lobby) (some a) u1 u2 o).usersMem.lookup uid =
        some { pd with hp := pd.hp - damage } := by
  simp only [receive_question_answered]
  rw [if_neg (by simp [hqa])]
  rw [hca]
  dsimp only
  by_cases hw : (decide (a ≠ ca.answer) ||
      decide (o.nowA > lobby.question_start_time +
        (s.QUESTION_MAX_DURATION_SECONDS_MAP ca.difficulty : Int))) = true
  · rw [if_pos hw]
    rw [huid]
    dsimp only
    rw [if_pos (by simp [hpd])]
    refine ⟨false, s.QUESTION_DIFFICULTY_DAMAGE_MAP ca.difficulty, ?_, ?_, ?_, ?_⟩
    · rw [answeredTail_toLobby_head]
    · simp only [Bool.or_eq_true, decide_eq_true_eq] at hw
      simp only [Bool.false_eq_true, false_iff]
      intro hcontra
      rcases hw with hw | hw
      · exact hw hcontra.1
      · omega
    · simp
    · have h := answeredTail_usersMem_and_store s
        { user_id := some uid, fifty_used := conn.fifty_used
          ready_sent := conn.ready_sent, question_answered := true }
        lobby lobby u1 u2 o ca
        (s.QUESTION_DIFFICULTY_DAMAGE_MAP ca.difficulty) false
        (applyDamage lobby.users uid (s.QUESTION_DIFFICULTY_DAMAGE_MAP ca.difficulty))
      rw [h.1, lookup_applyDamage, hpd]
      simp
  · rw [if_neg hw]
    simp only [Bool.or_eq_true, decide_eq_true_eq, not_or, not_not, not_lt] at hw
    refine ⟨true, 0, ?_, ?_, ?_, ?_⟩
    · rw [answeredTail_toLobby_head]
      rw [huid]
    · simpa using hw
    · simp
    · have h := answeredTail_usersMem_and_store s
        { conn with question_answered := true }
        lobby lobby u1 u2 o ca 0 true lobby.users
      rw [h.1, hpd]
      simp

/-- Witness for C3: bob answers Paris correctly at time 0; the theorem
instantiates with hp unchanged and damage 0. -/
theorem C3_scoring_iff_and_damage_witness :
    ∃ (correctly : Bool) (damage : Int),
      (receive_question_answered sampleSettings { user_id := some 2 } (some c2lobby)
        (some "Paris") userAlice userBob sampleOracles).toLobby.head? =
        some (Event.userAnswered (some 2) correctly "Paris" damage) ∧
      (correctly = true ↔ ("Paris" = "Paris" ∧ (0 : Int) ≤ c2lobby.question_start_time +
        (sampleSettings.QUESTION_MAX_DURATION_SECONDS_MAP Difficulty.hard : Int))) ∧
      damage = (if correctly = true then 0
        else (sampleSettings.QUESTION_DIFFICULTY_DAMAGE_MAP Difficulty.hard : Int)) ∧
      (receive_question_answered sampleSettings { user_id := some 2 } (some c2lobby)
        (some "Paris") userAlice userBob sampleOracles).usersMem.lookup 2 =
        some { name := "bob", hp := (100 : Int) - damage } :=
  C3_scoring_iff_and_damage sampleSettings { user_id := some 2 } c2lobby "Paris"
    userAlice userBob sampleOracles 2 { name := "bob", hp := 100 }
    { answer := "Paris", difficulty := Difficulty.hard } rfl rfl rfl rfl

/-- Counter bounds are preserved by every branch of the answer tail. -/
theorem answeredTail_counts (s : Settings) (conn : ConnState)
    (lobby0 lobby : Lobby) (u1 u2 : UserRec) (o : Oracles) (ca : CorrectAnswer)
    (damage : Int) (correctly : Bool) (users : List (UserId × PlayerData))
    (hN : 1 ≤ s.TRIVIA_API_QUESTION_AMOUNT)
    (hac0 : lobby0.current_answer_count ≤ 1)
    (hqc0 : lobby0.current_question_count < s.TRIVIA_API_QUESTION_AMOUNT)
    (hac : lobby.current_answer_count ≤ 1)
    (hqc : lobby.current_question_count < s.TRIVIA_API_QUESTION_AMOUNT) :
    ∀ lobby',
      (answeredTail s conn (some lobby0) lobby u1 u2 o ca damage correctly users).store =
        some lobby' →
      lobby'.current_answer_count ≤ 1 ∧
        lobby'.current_question_count < s.TRIVIA_API_QUESTION_AMOUNT := by
  intro lobby' h
  unfold answeredTail at h
  by_cases h1 : ({ lobby with users := users } : Lobby).current_answer_count = 0
  · rw [if_pos h1] at h
    cases h
    simp only at h1 ⊢
    omega
  · rw [if_neg h1] at h
    by_cases h2 : ({ lobby with users := users } : Lobby).users.any (fun p => p.2.hp ≤ 0) ∨
        o.nowB > ({ lobby with users := users } : Lobby).game_start_time +
          (s.GAME_MAX_DURATION_SECONDS : Int)
    · rw [if_pos h2] at h
      cases hst : determine_user_status_by_hp
          (({ lobby with users := users } : Lobby).users.map (fun p => (p.1, p.2.hp))) with
      | error e =>
        rw [hst] at h
        dsimp only at h
        cases h
        exact ⟨hac0, hqc0⟩
      | ok statuses =>
        rw [hst] at h
        dsimp only at h
        rw [handle_game_end_store] at h
        cases h
        exact ⟨hac0, hqc0⟩
    · rw [if_neg h2] at h
      by_cases h3 : (({ lobby with users := users } : Lobby).current_question_count : Int) =
          (s.TRIVIA_API_QUESTION_AMOUNT : Int) - 1
      · rw [if_pos h3] at h
        cases h
        constructor
        · exact Nat.zero_le 1
        · simpa using hN
      · rw [if_neg h3] at h
        cases h
        simp only at h3 ⊢
        refine ⟨Nat.zero_le 1, ?_⟩
        omega

/-- The second answer with no terminal condition advances the question
index (wrapping and refreshing the batch at the end of a batch), resets the
answer count and restarts the question clock. -/
theorem answeredTail_advance (s : Settings) (conn : ConnState)
    (lobby0 lobby : Lobby) (u1 u2 : UserRec) (o : Oracles) (ca : CorrectAnswer)
    (damage : Int) (correctly : Bool) (users : List (UserId × PlayerData))
    (hsecond : lobby.current_answer_count ≠ 0)
    (hterm1 : users.any (fun p => p.2.hp ≤ 0) = false)
    (hterm2 : o.nowB ≤ lobby.game_start_time + (s.GAME_MAX_DURATION_SECONDS : Int)) :
    (answeredTail s conn (some lobby0) lobby u1 u2 o ca damage correctly users).store =
      some { lobby with
        users := users
        current_question_count :=
          if (lobby.current_question_count : Int) = (s.TRIVIA_API_QUESTION_AMOUNT : Int) - 1
          then 0 else lobby.current_question_count + 1
        correct_answers :=
          if (lobby.current_question_count : Int) = (s.TRIVIA_API_QUESTION_AMOUNT : Int) - 1
          then o.newAnswers else lobby.correct_answers
        current_answer_count := 0
        question_start_time := o.nowB } := by
  unfold answeredTail
  rw [if_neg (by simpa using hsecond)]
  rw [if_neg (by simp only [not_or, not_lt]; exact ⟨by simpa using hterm1, hterm2⟩)]
  by_cases h3 : (({ lobby with users := users } : Lobby).current_question_count : Int) =
      (s.TRIVIA_API_QUESTION_AMOUNT : Int) - 1
  · rw [if_pos h3]
    simp only at h3
    rw [if_pos h3, if_pos h3]
  · rw [if_neg h3]
    simp only at h3
    rw [if_neg h3, if_neg h3]

/-- C9: the per-lobby counters stay in range (answer count at most 1,
question index below the batch size) across the answer handler, and on the
second answer with no terminal condition the index wraps to 0 with a fresh
batch exactly when it was at batch size minus 1, otherwise increments, and
the answer count resets to 0. -/
theorem C9_counts_invariant_and_advance (s : Settings) (conn : ConnState) (lobby : Lobby)
    (answer : Option String) (u1 u2 : UserRec) (o : Oracles)
    (hN : 1 ≤ s.TRIVIA_API_QUESTION_AMOUNT)
    (hac : lobby.current_answer_count ≤ 1)
    (hqc : lobby.current_question_count < s.TRIVIA_API_QUESTION_AMOUNT) :
    (∀ lobby',
      (receive_question_answered s conn (some lobby) answer u1 u2 o).store = some lobby' →
      lobby'.current_answer_count ≤ 1 ∧
        lobby'.current_question_count < s.TRIVIA_API_QUESTION_AMOUNT) ∧
    (conn.question_answered = false →
     lobby.current_answer_count ≠ 0 →
     (receive_question_answered s conn (some lobby) answer u1 u2 o).err = none →
     (receive_question_answered s conn (some lobby) answer u1 u2 o).usersMem.any
        (fun p => p.2.hp ≤ 0) = false →
     o.nowB ≤ lobby.game_start_time + (s.GAME_MAX_DURATION_SECONDS : Int) →
     (receive_question_answered s conn (some lobby) answer u1 u2 o).store =
       some { lobby with
         users := (receive_question_answered s conn (some lobby) answer u1 u2 o).usersMem
         current_question_count :=
           if (lobby.current_question_count : Int) = (s.TRIVIA_API_QUESTION_AMOUNT : Int) - 1
           then 0 else lobby.current_question_count + 1
         correct_answers :=
           if (lobby.current_question_count : Int) = (s.TRIVIA_API_QUESTION_AMOUNT : Int) - 1
           then o.newAnswers else lobby.correct_answers
         current_answer_count := 0
         question_start_time := o.nowB }) := by
  constructor
  · simp only [receive_question_answered]
    by_cases hqa : conn.question_answered = true
    · rw [if_pos hqa]
      intro lobby' h
      cases h
      exact ⟨hac, hqc⟩
    · rw [if_neg hqa]
      cases hca : lobby.correct_answers.get? lobby.current_question_count with
      | none =>
        intro lobby' h
        cases h
        exact ⟨hac, hqc⟩
      | some ca =>
        cases answer with
        | none =>
          intro lobby' h
          cases h
          exact ⟨hac, hqc⟩
        | some a =>
          dsimp only
          by_cases hw : (decide (a ≠ ca.answer) ||
              decide (o.nowA > lobby.question_start_time +
                (s.QUESTION_MAX_DURATION_SECONDS_MAP ca.difficulty : Int))) = true
          · rw [if_pos hw]
            cases huid : conn.user_id with
            | none =>
              intro lobby' h
              cases h
              exact ⟨hac, hqc⟩
            | some uid =>
              dsimp only
              by_cases hmem : (lobby.users.lookup uid).isSome = true
              · rw [if_pos hmem]
                exact answeredTail_counts s _ lobby lobby u1 u2 o ca _ false _
                  hN hac hqc hac hqc
              · rw [if_neg hmem]
                intro lobby' h
                cases h
                exact ⟨hac, hqc⟩
          · rw [if_neg hw]
            exact answeredTail_counts s _ lobby lobby u1 u2 o ca 0 true lobby.users
              hN hac hqc hac hqc
  · intro hqa hsecond herr husers hnow
    revert herr husers
    simp only [receive_question_answered]
    rw [if_neg (by simp [hqa])]
    cases hca : lobby.correct_answers.get? lobby.current_question_count with
    | none => intro herr; cases herr
    | some ca =>
      cases answer with
      | none => intro herr; cases herr
      | some a =>
        dsimp only
        by_cases hw : (decide (a ≠ ca.answer) ||
            decide (o.nowA > lobby.question_start_time +
              (s.QUESTION_MAX_DURATION_SECONDS_MAP ca.difficulty : Int))) = true
        · rw [if_pos hw]
          cases huid : conn.user_id with
          | none => intro herr; cases herr
          | some uid =>
            dsimp only
            by_cases hmem : (lobby.users.lookup uid).isSome = true
            · rw [if_pos hmem]
              intro herr husers
              have hmemeq := (answeredTail_usersMem_and_store s
                { user_id := some uid, fifty_used := conn.fifty_used
                  ready_sent := conn.ready_sent, question_answered := true }
                lobby lobby u1 u2 o ca
                (s.QUESTION_DIFFICULTY_DAMAGE_MAP ca.difficulty) false
                (applyDamage lobby.users uid
                  (s.QUESTION_DIFFICULTY_DAMAGE_MAP ca.difficulty))).1
              rw [hmemeq] at husers ⊢
              exact answeredTail_advance s _ lobby lobby u1 u2 o ca _ false _
                hsecond husers hnow
            · rw [if_neg hmem]
              intro herr; cases herr
        · rw [if_neg hw]
          intro herr husers
          have hmemeq := (answeredTail_usersMem_and_store s
            { conn with question_answered := true }
            lobby lobby u1 u2 o ca 0 true lobby.users).1
          rw [hmemeq] at husers ⊢
          exact answeredTail_advance s _ lobby lobby u1 u2 o ca 0 true lobby.users
            hsecond husers hnow

/-- A mid-game lobby awaiting the second answer of question 0. -/
def c9lobby : Lobby :=
  { name := "L1"
    state := LobbyState.IN_PROGRESS
    users := [(1, { name := "alice", hp := 100 }), (2, { name := "bob", hp := 100 })]
    correct_answers := [{ answer := "Paris", difficulty := Difficulty.hard }]
    current_answer_count := 1
    ready_count := 2 }

/-- Witness for C9: the second correct answer on question 0 of a batch of 10
advances the index to 1 and resets the answer count. -/
theorem C9_counts_invariant_and_advance_witness :
    (1 : Nat) ≤ sampleSettings.TRIVIA_API_QUESTION_AMOUNT ∧
    (receive_question_answered sampleSettings { user_id := some 2 } (some c9lobby)
        (some "Paris") userAlice userBob sampleOracles).store =
      some { c9lobby with
        users := (receive_question_answered sampleSettings { user_id := some 2 }
          (some c9lobby) (some "Paris") userAlice userBob sampleOracles).usersMem
        current_question_count :=
          if (c9lobby.current_question_count : Int) =
              (sampleSettings.TRIVIA_API_QUESTION_AMOUNT : Int) - 1
          then 0 else c9lobby.current_question_count + 1
        correct_answers :=
          if (c9lobby.current_question_count : Int) =
              (sampleSettings.TRIVIA_API_QUESTION_AMOUNT : Int) - 1
          then sampleOracles.newAnswers else c9lobby.correct_answers
        current_answer_count := 0
        question_start_time := sampleOracles.nowB } :=
  ⟨by decide,
    (C9_counts_invariant_and_advance sampleSettings { user_id := some 2 } c9lobby
      (some "Paris") userAlice userBob sampleOracles (by decide) (by decide) (by decide)).2
      rfl (by decide) rfl rfl (by decide)⟩

/-- A two-user lobby in progress, from which alice disconnects. -/
def c4lobby : Lobby :=
  { name := "L1"
    state := LobbyState.IN_PROGRESS
    users := [(1, { name := "alice", hp := 100 }), (2, { name := "bob", hp := 50 })]
    ready_count := 2 }

/-- Counterexample to C4 as stated: after alice disconnects mid-game, the
record left in the store has the user removed but state IN_PROGRESS, not
FINISHED, because the handler saves its pre-transition copy of the lobby
after handle_game_end persisted the FINISHED one. The game end itself did
run: the game.end broadcast with LOSS for alice and WIN for bob is
emitted. -/
theorem C4_final_state_counterexample :
    (disconnect sampleSettings { user_id := some 1 } (some c4lobby)
        userAlice userBob).store =
      some { c4lobby with users := [(2, { name := "bob", hp := 50 })] } ∧
    ({ c4lobby with users := [(2, { name := "bob", hp := 50 })] } : Lobby).state =
      LobbyState.IN_PROGRESS ∧
    LobbyState.IN_PROGRESS ≠ LobbyState.FINISHED ∧
    (disconnect sampleSettings { user_id := some 1 } (some c4lobby)
        userAlice userBob).toLobby =
      [Event.gameEnd [(1, { status := GameStatus.LOSS, rank_gain := -20 }),
                      (2, { status := GameStatus.WIN, rank_gain := 20 })]] := by
  exact ⟨rfl, rfl, by decide, rfl⟩

/-- C4 (amended): when a socket closes while the lobby is IN_PROGRESS with
the opponent remaining, the engine synthesizes LOSS for the leaver and WIN
for the opponent and runs the FINISHED transition, which persists state
FINISHED; but the handler then saves its stale pre-transition copy with the
user removed, so the record left in the store after the handler completes
has state IN_PROGRESS. -/
theorem C4_disconnect_runs_finished_then_overwrites (s : Settings) (conn : ConnState)
    (lobby : Lobby) (uid opp : UserId) (u1 u2 : UserRec)
    (huid : conn.user_id = some uid)
    (hstate : lobby.state = LobbyState.IN_PROGRESS)
    (hlen : lobby.users.length ≠ 1)
    (hfind : (lobby.users.map Prod.fst).find? (fun user_id => user_id ≠ uid) = some opp)
    (hmem : (lobby.users.lookup uid).isSome = true)
    (hu1 : u1.pk = uid) (hu2 : u2.pk = opp) :
    (handle_game_end s (some lobby)
        [(uid, GameStatus.LOSS), (opp, GameStatus.WIN)] u1 u2).1 =
      some { lobby with state := LobbyState.FINISHED } ∧
    (disconnect s conn (some lobby) u1 u2).toLobby =
      [Event.gameEnd
        [(uid, { status := GameStatus.LOSS
                 rank_gain := determine_rank_gain_by_game_status s GameStatus.LOSS }),
         (opp, { status := GameStatus.WIN
                 rank_gain := determine_rank_gain_by_game_status s GameStatus.WIN })]] ∧
    (disconnect s conn (some lobby) u1 u2).store =
      some { lobby with users := lobby.users.filter (fun p => p.1 ≠ uid) } ∧
    (∀ lobby', (disconnect s conn (some lobby) u1 u2).store = some lobby' →
      lobby'.state = lobby.state) := by
  have hne : opp ≠ uid := by
    have h := List.find?_some hfind
    simpa using h
  have hl1 : (([(uid, GameStatus.LOSS), (opp, GameStatus.WIN)] :
      List (UserId × GameStatus)).lookup u1.pk) = some GameStatus.LOSS := by
    rw [hu1]
    simp [List.lookup]
  have hl2 : (([(uid, GameStatus.LOSS), (opp, GameStatus.WIN)] :
      List (UserId × GameStatus)).lookup u2.pk) = some GameStatus.WIN := by
    rw [hu2]
    have hbeq : (opp == uid) = false := by simpa using hne
    simp [List.lookup, hbeq]
  have hge : handle_game_end s (some lobby)
      [(uid, GameStatus.LOSS), (opp, GameStatus.WIN)] u1 u2 =
      (some { lobby with state := LobbyState.FINISHED },
       (if lobby.ranked then { u1 with rank := max (u1.rank +
          determine_rank_gain_by_game_status s GameStatus.LOSS) 0 } else u1),
       (if lobby.ranked then { u2 with rank := max (u2.rank +
          determine_rank_gain_by_game_status s GameStatus.WIN) 0 } else u2),
       [Event.gameEnd
         [(u1.pk, { status := GameStatus.LOSS
                    rank_gain := determine_rank_gain_by_game_status s GameStatus.LOSS }),
          (u2.pk, { status := GameStatus.WIN
                    rank_gain := determine_rank_gain_by_game_status s GameStatus.WIN })]],
       none) := by
    simp only [handle_game_end, hl1, hl2]
  have hdisc : disconnect s conn (some lobby) u1 u2 =
      { conn := conn
        store := some { lobby with users := lobby.users.filter (fun p => p.1 ≠ uid) }
        u1 := (if lobby.ranked then { u1 with rank := max (u1.rank +
          determine_rank_gain_by_game_status s GameStatus.LOSS) 0 } else u1)
        u2 := (if lobby.ranked then { u2 with rank := max (u2.rank +
          determine_rank_gain_by_game_status s GameStatus.WIN) 0 } else u2)
        toLobby := [Event.gameEnd
          [(u1.pk, { status := GameStatus.LOSS
                     rank_gain := determine_rank_gain_by_game_status s GameStatus.LOSS }),
           (u2.pk, { status := GameStatus.WIN
                     rank_gain := determine_rank_gain_by_game_status s GameStatus.WIN })]] } := by
    simp only [disconnect, huid]
    rw [if_neg hlen, if_pos hstate, hfind]
    dsimp only
    rw [hge]
    dsimp only
    rw [if_pos hmem]
  refine ⟨by rw [hge], ?_, ?_, ?_⟩
  · rw [hdisc, hu1, hu2]
  · rw [hdisc]
  · intro lobby' h
    rw [hdisc] at h
    cases h
    rfl

/-- Witness for C4 at the concrete two-user lobby: alice leaves, the
FINISHED record is written and then overwritten by the stale copy. -/
theorem C4_disconnect_runs_finished_then_overwrites_witness :
    (handle_game_end sampleSettings (some c4lobby)
        [(1, GameStatus.LOSS), (2, GameStatus.WIN)] userAlice userBob).1 =
      some { c4lobby with state := LobbyState.FINISHED } ∧
    (disconnect sampleSettings { user_id := some 1 } (some c4lobby)
        userAlice userBob).toLobby =
      [Event.gameEnd
        [(1, { status := GameStatus.LOSS
               rank_gain := determine_rank_gain_by_game_status sampleSettings GameStatus.LOSS }),
         (2, { status := GameStatus.WIN
               rank_gain := determine_rank_gain_by_game_status sampleSettings GameStatus.WIN })]] ∧
    (disconnect sampleSettings { user_id := some 1 } (some c4lobby)
        userAlice userBob).store =
      some { c4lobby with users := c4lobby.users.filter (fun p => p.1 ≠ 1) } ∧
    (∀ lobby', (disconnect sampleSettings { user_id := some 1 } (some c4lobby)
        userAlice userBob).store = some lobby' →
      lobby'.state = c4lobby.state) :=
  C4_disconnect_runs_finished_then_overwrites sampleSettings { user_id := some 1 }
    c4lobby 1 2 userAlice userBob rfl rfl (by decide) (by decide) rfl rfl rfl

/-- A mid-game lobby whose current question is multiple choice with stored
correct answer A (the incorrect answers of the question being B, C, D on
the client side; the server does not store them). -/
def c5lobby : Lobby :=
  { name := "L1"
    state := LobbyState.IN_PROGRESS
    users := [(1, { name := "alice", hp := 100 }), (2, { name := "bob", hp := 100 })]
    correct_answers := [{ answer := "A", difficulty := Difficulty.easy }]
    ready_count := 2 }

/-- Counterexample to C5 as stated: the submitted list A, B, B, C contains a
duplicate and its non-correct entries B, B, C do not match the question
incorrect set B, C, D, so the claim requires a silent drop; the code only
counts entries different from the stored correct answer, finds 3, and
answers with a fifty.response (here even containing the duplicate). -/
theorem C5_duplicate_answers_counterexample :
    ¬ (["A", "B", "B", "C"] : List String).Nodup ∧
    (receive_fifty_request {} (some c5lobby) (some ["A", "B", "B", "C"])
        userAlice userBob sampleOracles).toSelf =
      [Event.fiftyResponse ["B", "B"]] := by
  exact ⟨by decide, rfl⟩

/-- C5 (amended): a first fifty.request is silently dropped exactly when the
stored correct answer is the string True or False (in particular for every
boolean question), or the answer list length is not 4, or the number of
submitted entries differing from the stored correct answer is not exactly
3; mismatched or duplicated incorrect entries are not detected, because
the server stores only the correct answer. Otherwise it sends one
fifty.response with 2 entries sampled from those 3, to the requesting
socket only, never broadcast, and the store is untouched. -/
theorem C5_fifty_drop_iff_and_response (conn : ConnState) (lobby : Lobby)
    (answers : List String) (u1 u2 : UserRec) (o : Oracles) (ca : CorrectAnswer)
    (hfu : conn.fifty_used = false)
    (hca : lobby.correct_answers.get? lobby.current_question_count = some ca)
    (hsample : ∀ l : List String, l.length = 3 →
      (o.sample l).length = 2 ∧ ∀ x ∈ o.sample l, x ∈ l) :
    (receive_fifty_request conn (some lobby) (some answers) u1 u2 o).toLobby = [] ∧
    (receive_fifty_request conn (some lobby) (some answers) u1 u2 o).store = some lobby ∧
    (if ca.answer = "True" ∨ ca.answer = "False" ∨ answers.length ≠ 4 ∨
        (answers.filter (fun a => a ≠ ca.answer)).length ≠ 3
     then (receive_fifty_request conn (some lobby) (some answers) u1 u2 o).toSelf = []
     else ∃ sent,
        (receive_fifty_request conn (some lobby) (some answers) u1 u2 o).toSelf =
          [Event.fiftyResponse sent] ∧ sent.length = 2 ∧
        ∀ x ∈ sent, x ∈ answers.filter (fun a => a ≠ ca.answer)) := by
  simp only [receive_fifty_request]
  rw [if_neg (by simp [hfu])]
  rw [hca]
  dsimp only
  by_cases h1 : ca.answer = "True" ∨ ca.answer = "False"
  · have hcond : ca.answer = "True" ∨ ca.answer = "False" ∨ answers.length ≠ 4 ∨
        (answers.filter (fun a => a ≠ ca.answer)).length ≠ 3 := by
      rcases h1 with h | h
      · exact Or.inl h
      · exact Or.inr (Or.inl h)
    rw [if_pos h1]
    exact ⟨rfl, rfl, by rw [if_pos hcond]⟩
  · rw [if_neg h1]
    by_cases h2 : answers.length ≠ 4
    · rw [if_pos h2]
      exact ⟨rfl, rfl, by rw [if_pos (Or.inr (Or.inr (Or.inl h2)))]⟩
    · rw [if_neg h2]
      by_cases h3 : (answers.filter (fun a => a ≠ ca.answer)).length ≠ 3
      · rw [if_pos h3]
        exact ⟨rfl, rfl, by rw [if_pos (Or.inr (Or.inr (Or.inr h3)))]⟩
      · rw [if_neg h3]
        refine ⟨rfl, rfl, ?_⟩
        rw [if_neg (by simp only [not_or]; exact ⟨fun h => h1 (Or.inl h),
          fun h => h1 (Or.inr h), h2, h3⟩)]
        have hs := hsample (answers.filter (fun a => a ≠ ca.answer))
          (by simpa using h3)
        exact ⟨o.sample (answers.filter (fun a => a ≠ ca.answer)), rfl, hs.1, hs.2⟩

/-- Witness for C5: a clean request A, B, C, D against stored correct
answer A gets a two-element response drawn from B, C, D. -/
theorem C5_fifty_drop_iff_and_response_witness :
    (receive_fifty_request {} (some c5lobby) (some ["A", "B", "C", "D"])
        userAlice userBob sampleOracles).toLobby = [] ∧
    (receive_fifty_request {} (some c5lobby) (some ["A", "B", "C", "D"])
        userAlice userBob sampleOracles).store = some c5lobby ∧
    (if ({ answer := "A", difficulty := Difficulty.easy } : CorrectAnswer).answer = "True" ∨
        ({ answer := "A", difficulty := Difficulty.easy } : CorrectAnswer).answer = "False" ∨
        (["A", "B", "C", "D"] : List String).length ≠ 4 ∨
        ((["A", "B", "C", "D"] : List String).filter
          (fun a => a ≠ ({ answer := "A", difficulty := Difficulty.easy } : CorrectAnswer).answer)).length ≠ 3
     then (receive_fifty_request {} (some c5lobby) (some ["A", "B", "C", "D"])
        userAlice userBob sampleOracles).toSelf = []
     else ∃ sent,
        (receive_fifty_request {} (some c5lobby) (some ["A", "B", "C", "D"])
          userAlice userBob sampleOracles).toSelf =
          [Event.fiftyResponse sent] ∧ sent.length = 2 ∧
        ∀ x ∈ sent, x ∈ (["A", "B", "C", "D"] : List String).filter
          (fun a => a ≠ ({ answer := "A", difficulty := Difficulty.easy } : CorrectAnswer).answer)) :=
  C5_fifty_drop_iff_and_response {} c5lobby ["A", "B", "C", "D"] userAlice userBob
    sampleOracles { answer := "A", difficulty := Difficulty.easy } rfl rfl
    (fun l hl => ⟨by simp [sampleOracles, List.length_take, hl],
      fun x hx => List.take_subset 2 l hx⟩)

/-- A sequence of fifty.request deliveries to one connection: each element
carries the lobby record at the time of the request, the payload and the
external inputs; the connection state threads through and the responses
sent to the socket accumulate. -/
def runFiftyRequests (u1 u2 : UserRec) :
    ConnState → List (Option Lobby × Option (List String) × Oracles) →
      ConnState × List Event
  | conn, [] => (conn, [])
  | conn, (store, answers, o) :: rest =>
    let r := receive_fifty_request conn store answers u1 u2 o
    let tail_result := runFiftyRequests u1 u2 r.conn rest
    (tail_result.1, r.toSelf ++ tail_result.2)

/-- With the one-shot flag already set, a fifty.request is a no-op. -/
theorem fifty_used_step (conn : ConnState) (store : Option Lobby)
    (answers : Option (List String)) (u1 u2 : UserRec) (o : Oracles)
    (h : conn.fifty_used = true) :
    receive_fifty_request conn store answers u1 u2 o =
      { conn := conn, store := store, u1 := u1, u2 := u2 } := by
  simp only [receive_fifty_request]
  rw [if_pos h]

/-- A first fifty.request always sets the one-shot flag, whatever the
payload and lobby look like, and sends at most one message back. -/
theorem fifty_fresh_step (conn : ConnState) (store : Option Lobby)
    (answers : Option (List String)) (u1 u2 : UserRec) (o : Oracles)
    (h : conn.fifty_used = false) :
    (receive_fifty_request conn store answers u1 u2 o).conn.fifty_used = true ∧
    (receive_fifty_request conn store answers u1 u2 o).toSelf.length ≤ 1 := by
  simp only [receive_fifty_request]
  rw [if_neg (by simp [h])]
  cases store with
  | none => exact ⟨rfl, by simp⟩
  | some lobby =>
    dsimp only
    cases lobby.correct_answers.get? lobby.current_question_count with
    | none => exact ⟨rfl, by simp⟩
    | some entry =>
      dsimp only
      by_cases h1 : entry.answer = "True" ∨ entry.answer = "False"
      · rw [if_pos h1]
        exact ⟨rfl, by simp⟩
      · rw [if_neg h1]
        cases answers with
        | none => exact ⟨rfl, by simp⟩
        | some answers =>
          dsimp only
          by_cases h2 : answers.length ≠ 4
          · rw [if_pos h2]
            exact ⟨rfl, by simp⟩
          · rw [if_neg h2]
            by_cases h3 : (answers.filter (fun a => a ≠ entry.answer)).length ≠ 3
            · rw [if_pos h3]
              exact ⟨rfl, by simp⟩
            · rw [if_neg h3]
              exact ⟨rfl, by simp⟩

/-- With the flag already set, a whole request sequence is a no-op. -/
theorem runFiftyRequests_used (u1 u2 : UserRec)
    (reqs : List (Option Lobby × Option (List String) × Oracles)) :
    ∀ conn : ConnState, conn.fifty_used = true →
      runFiftyRequests u1 u2 conn reqs = (conn, []) := by
  induction reqs with
  | nil => intro conn h; rfl
  | cons req rest ih =>
    intro conn h
    obtain ⟨store, answers, o⟩ := req
    simp only [runFiftyRequests]
    rw [fifty_used_step conn store answers u1 u2 o h]
    dsimp only
    rw [ih conn h]
    rfl

/-- Over any request sequence, the responses sent back number at most one
(zero when the flag was already set). -/
theorem runFiftyRequests_le_one (u1 u2 : UserRec)
    (reqs : List (Option Lobby × Option (List String) × Oracles)) :
    ∀ conn : ConnState,
      (runFiftyRequests u1 u2 conn reqs).2.length ≤
        (if conn.fifty_used then 0 else 1) := by
  induction reqs with
  | nil =>
    intro conn
    simp only [runFiftyRequests, List.length_nil]
    split <;> omega
  | cons req rest ih =>
    intro conn
    obtain ⟨store, answers, o⟩ := req
    by_cases h : conn.fifty_used = true
    · rw [runFiftyRequests_used u1 u2 _ conn h]
      simp [h]
    · have hb : conn.fifty_used = false := by simpa using h
      have hf := fifty_fresh_step conn store answers u1 u2 o hb
      simp only [runFiftyRequests, List.length_append]
      rw [runFiftyRequests_used u1 u2 rest _ hf.1]
      simp only [List.length_nil, Nat.add_zero, hb, if_false]
      exact hf.2

/-- C10: the one-shot flag is set by the first fifty.request before any
validation runs, so even a dropped invalid request consumes the ability;
once set, every later fifty.request sends nothing back, and over any
sequence of fifty.requests the connection receives at most one
fifty.response. -/
theorem C10_fifty_flag_consumed_and_at_most_one_response (u1 u2 : UserRec) :
    (∀ (conn : ConnState) (store : Option Lobby) (answers : Option (List String))
        (o : Oracles), conn.fifty_used = false →
      (receive_fifty_request conn store answers u1 u2 o).conn.fifty_used = true) ∧
    (∀ (conn : ConnState) (store : Option Lobby) (answers : Option (List String))
        (o : Oracles), conn.fifty_used = true →
      (receive_fifty_request conn store answers u1 u2 o).toSelf = []) ∧
    (∀ (conn : ConnState)
        (reqs : List (Option Lobby × Option (List String) × Oracles)),
      (runFiftyRequests u1 u2 conn reqs).2.length ≤ 1) := by
  refine ⟨?_, ?_, ?_⟩
  · intro conn store answers o h
    exact (fifty_fresh_step conn store answers u1 u2 o h).1
  · intro conn store answers o h
    rw [fifty_used_step conn store answers u1 u2 o h]
  · intro conn reqs
    have h := runFiftyRequests_le_one u1 u2 reqs conn
    split at h <;> omega

/-- Witness for C10: a first request with no lobby and no payload still
consumes the flag, and two identical valid requests in a row return at
most one response. -/
theorem C10_fifty_flag_consumed_witness :
    (receive_fifty_request {} none none userAlice userBob
      sampleOracles).conn.fifty_used = true ∧
    (runFiftyRequests userAlice userBob {}
      [(some c5lobby, some ["A", "B", "C", "D"], sampleOracles),
       (some c5lobby, some ["A", "B", "C", "D"], sampleOracles)]).2.length ≤ 1 :=
  ⟨(C10_fifty_flag_consumed_and_at_most_one_response userAlice userBob).1
      {} none none sampleOracles rfl,
   (C10_fifty_flag_consumed_and_at_most_one_response userAlice userBob).2.2 {} _⟩

/-- Counterexample to C6 as stated: a question.answered with no answer field
on a fresh connection raises KeyError (the exception escapes the handler)
and still flips the connection one-shot answered flag, so it neither leaves
state unchanged nor stays silent in the required sense. -/
theorem C6_malformed_payload_counterexample :
    (receive_json sampleSettings {} (some c5lobby) userAlice userBob sampleOracles
      (ClientMsg.questionAnswered none)).err = some PyError.keyError ∧
    (receive_json sampleSettings {} (some c5lobby) userAlice userBob sampleOracles
      (ClientMsg.questionAnswered none)).conn ≠ ({} : ConnState) := by
  exact ⟨rfl, by decide⟩

/-- C6 (amended): messages with a missing or unexpected type, a second
question.answered from the same socket, and a duplicate fifty.request are
silently ignored with no event, no state change and no exception; but a
malformed question.answered without an answer field raises an uncaught
KeyError after setting the connection answered flag. -/
theorem C6_violations_ignored_except_malformed (s : Settings) (conn : ConnState)
    (store : Option Lobby) (u1 u2 : UserRec) (o : Oracles) :
    (receive_json s conn store u1 u2 o ClientMsg.unknown =
      { conn := conn, store := store, u1 := u1, u2 := u2 }) ∧
    (∀ (lobby : Lobby) (answer : Option String), conn.question_answered = true →
      receive_json s conn (some lobby) u1 u2 o (ClientMsg.questionAnswered answer) =
        { conn := conn, store := some lobby, u1 := u1, u2 := u2
          usersMem := lobby.users }) ∧
    (∀ answers : Option (List String), conn.fifty_used = true →
      receive_json s conn store u1 u2 o (ClientMsg.fiftyRequest answers) =
        { conn := conn, store := store, u1 := u1, u2 := u2 }) ∧
    (∀ (lobby : Lobby) (ca : CorrectAnswer), conn.question_answered = false →
      lobby.correct_answers.get? lobby.current_question_count = some ca →
      (receive_json s conn (some lobby) u1 u2 o
        (ClientMsg.questionAnswered none)).err = some PyError.keyError ∧
      (receive_json s conn (some lobby) u1 u2 o
        (ClientMsg.questionAnswered none)).conn =
        { conn with question_answered := true }) := by
  refine ⟨rfl, ?_, ?_, ?_⟩
  · intro lobby answer hqa
    simp only [receive_json, receive_question_answered]
    rw [if_pos hqa]
  · intro answers h
    exact fifty_used_step conn store answers u1 u2 o h
  · intro lobby ca hqa hca
    simp only [receive_json, receive_question_answered]
    rw [if_neg (by simp [hqa])]
    rw [hca]
    exact ⟨rfl, rfl⟩

/-- Witness for C6: a duplicate answer is ignored, a payload without the
answer field raises KeyError. -/
theorem C6_violations_ignored_except_malformed_witness :
    (receive_json sampleSettings { question_answered := true } (some c5lobby)
        userAlice userBob sampleOracles (ClientMsg.questionAnswered (some "A")) =
      { conn := { question_answered := true }, store := some c5lobby
        u1 := userAlice, u2 := userBob, usersMem := c5lobby.users }) ∧
    (receive_json sampleSettings {} (some c5lobby) userAlice userBob sampleOracles
      (ClientMsg.questionAnswered none)).err = some PyError.keyError :=
  ⟨(C6_violations_ignored_except_malformed sampleSettings { question_answered := true }
      (some c5lobby) userAlice userBob sampleOracles).2.1 c5lobby (some "A") rfl,
   ((C6_violations_ignored_except_malformed sampleSettings {} (some c5lobby)
      userAlice userBob sampleOracles).2.2.2 c5lobby
      { answer := "A", difficulty := Difficulty.easy } rfl rfl).1⟩

end TriviaDuel
